import Mathlib

/-!
# Verification of the roop core pipeline (`src/roop/core.py`)

A shallow embedding of the control flow of `src/roop/core.py`:

* `parse_args_update` — the provider/vendor part of `parse_args` (lines 74-80);
* `pre_check` — the environment validation (lines 126-147), with `quit(msg)`
  modelled as `Except.error msg`;
* `pool_chunks` / `submit_loop` / `pooled_trace` — the process-pool fan-out of
  `conditional_process_video` (lines 150-163);
* `get_results` — the result-retrieval loop (`for pool in pools: pool.get()`)
  with per-chunk failure modelled as `Except`;
* `start` — the image/video pipeline (lines 175-247), as the trace of effects
  it performs; `destroy` (lines 250-253) ends the trace with `Event.quit`.

Python `None`/empty-string falsiness for path options is modelled with the
empty string; floating-point NSFW scores are modelled as rationals.
-/

namespace Roop

/-- The mutable global configuration `roop.globals` as read and written by
`src/roop/core.py`.  String options that can be unset (Python `None` / `''`,
both falsy) are modelled with `""`. -/
structure Globals where
  source_path : String
  target_path : String
  output_path : String
  frame_processors : List String
  keep_fps : Bool
  keep_audio : Bool
  keep_frames : Bool
  video_encoder : String
  video_quality : Int
  max_memory : Nat
  cpu_cores : Nat
  gpu_threads : Nat
  gpu_vendor : Option String
  providers : List String
deriving DecidableEq

/-- The two command-line arguments of `parse_args` that drive the
provider/vendor globals: `--execution-provider` (choices `cpu`/`directml`)
and the optional `--gpu-vendor` (choices `apple`/`amd`/`nvidia`). -/
structure Args where
  execution_provider : String
  gpu_vendor : Option String
deriving DecidableEq

/-- Lines 74-80 of `parse_args` in `src/roop/core.py`:

    if args.execution_provider == 'directml':
        roop.globals.providers = ['DmlExecutionProvider']
        roop.globals.gpu_vendor = 'other'
    if args.gpu_vendor:
        roop.globals.gpu_vendor = args.gpu_vendor
    else:
        roop.globals.providers = ['CPUExecutionProvider']

`g` is the state of `roop.globals` before these lines run. -/
def parse_args_update (g : Globals) (a : Args) : Globals :=
  let g1 :=
    if a.execution_provider = "directml" then
      { g with providers := ["DmlExecutionProvider"], gpu_vendor := some "other" }
    else g
  match a.gpu_vendor with
  | some v => { g1 with gpu_vendor := some v }
  | none => { g1 with providers := ["CPUExecutionProvider"] }

/-- Python tuple comparison `sys.version_info < (3, 9)` restricted to the
(major, minor) components that decide it. -/
def version_lt (a b : Nat × Nat) : Prop :=
  a.1 < b.1 ∨ (a.1 = b.1 ∧ a.2 < b.2)

instance (a b : Nat × Nat) : Decidable (version_lt a b) := by
  unfold version_lt
  infer_instance

/-- The runtime environment probed by `pre_check`: interpreter version,
`shutil.which('ffmpeg')`, `torch.cuda.is_available()`, `torch.version.cuda`
(a string, compared lexicographically as in Python) and
`torch.backends.cudnn.version()`. -/
structure RuntimeEnv where
  python_version : Nat × Nat
  ffmpeg_found : Bool
  cuda_available : Bool
  cuda_version : String
  cudnn_version : Nat

/-- The f-string messages of the nvidia checks (lines 140-147). -/
@[irreducible] def cuda_downgrade_msg (v : String) : String :=
  "CUDA version " ++ v ++ " is not supported - please downgrade to 11.8"

@[irreducible] def cuda_upgrade_msg (v : String) : String :=
  "CUDA version " ++ v ++ " is not supported - please upgrade to 11.8"

@[irreducible] def cudnn_upgrade_msg (v : Nat) : String :=
  "CUDNN version " ++ toString v ++ " is not supported - please upgrade to 8.9.1"

@[irreducible] def cudnn_downgrade_msg (v : Nat) : String :=
  "CUDNN version " ++ toString v ++ " is not supported - please downgrade to 8.9.1"

/-- `pre_check` (lines 126-147 of `src/roop/core.py`).  Each `quit(msg)` is a
hard process exit with a printed message, modelled as `Except.error msg`;
falling through every check returns normally (`Except.ok ()`). -/
def pre_check (g : Globals) (env : RuntimeEnv) : Except String Unit :=
  if version_lt env.python_version (3, 9) then
    Except.error "Python version is not supported - please upgrade to 3.9 or higher."
  else if env.ffmpeg_found = false then
    Except.error "ffmpeg is not installed!"
  else if g.gpu_vendor = some "apple" ∧ "CoreMLExecutionProvider" ∉ g.providers then
    Except.error "You are using --gpu=apple flag but CoreML is not available or properly installed on your system."
  else if g.gpu_vendor = some "amd" ∧ "ROCMExecutionProvider" ∉ g.providers then
    Except.error "You are using --gpu=amd flag but ROCM is not available or properly installed on your system."
  else if g.gpu_vendor = some "nvidia" then
    if env.cuda_available = false then
      Except.error "You are using --gpu=nvidia flag but CUDA is not available or properly installed on your system."
    else if "11.8" < env.cuda_version then
      Except.error (cuda_downgrade_msg env.cuda_version)
    else if env.cuda_version < "11.4" then
      Except.error (cuda_upgrade_msg env.cuda_version)
    else if env.cudnn_version < 8220 then
      Except.error (cudnn_upgrade_msg env.cudnn_version)
    else if 8910 < env.cudnn_version then
      Except.error (cudnn_downgrade_msg env.cudnn_version)
    else
      Except.ok ()
  else
    Except.ok ()

/-- The guard of the pooled branch of `conditional_process_video` (line 152):
`pool_amount > 2 and roop.globals.cpu_cores > 1 and roop.globals.gpu_vendor is None`,
with `pool_amount = len(temp_frame_paths) // roop.globals.cpu_cores`. -/
def pooled_cond (g : Globals) (temp_frame_paths : List String) : Prop :=
  2 < temp_frame_paths.length / g.cpu_cores ∧ 1 < g.cpu_cores ∧ g.gpu_vendor = none

instance (g : Globals) (paths : List String) : Decidable (pooled_cond g paths) := by
  unfold pooled_cond
  infer_instance

/-- The slices submitted by the fan-out loop of `conditional_process_video`
(lines 155-157):

    for i in range(0, len(temp_frame_paths), pool_amount):
        POOL.apply_async(process_video, args=(source_path, temp_frame_paths[i:i + pool_amount], 'cpu'))

`pool_chunks paths k i` is the list of slices `paths[i:i+k]` produced from
loop index `i` on (Python `range` with a positive step stops at `len`). -/
def pool_chunks (paths : List String) (k : Nat) (i : Nat) : List (List String) :=
  if h : i < paths.length ∧ 0 < k then
    ((paths.drop i).take k) :: pool_chunks paths k (i + k)
  else
    []
termination_by paths.length - i
decreasing_by obtain ⟨h1, h2⟩ := h; omega

/-- The pooled branch of `conditional_process_video` (lines 153-157):
`multiprocessing.Pool(roop.globals.cpu_cores, maxtasksperchild=1)` plus the
chunks submitted to it. -/
structure PooledRun where
  processes : Nat
  maxtasksperchild : Nat
  chunks : List (List String)

/-- What the pooled branch builds: a pool of `cpu_cores` worker processes and
the submitted slices of width `pool_amount = len(temp_frame_paths) // cpu_cores`. -/
def pooled_run (g : Globals) (temp_frame_paths : List String) : PooledRun :=
  { processes := g.cpu_cores
    maxtasksperchild := 1
    chunks := pool_chunks temp_frame_paths (temp_frame_paths.length / g.cpu_cores) 0 }

/-- Observable pool operations of the pooled branch: `apply_async` submission,
`AsyncResult.get`, `Pool.close` and `Pool.join`. -/
inductive PoolEvent where
  | submit (chunk : List String)
  | get (chunk : List String)
  | close
  | join
deriving DecidableEq

/-- The submission loop (lines 154-157): it emits one `apply_async` per slice
and appends the async result to `pools`, in loop order. -/
def submit_loop (paths : List String) (k : Nat) (i : Nat) :
    List PoolEvent × List (List String) :=
  if h : i < paths.length ∧ 0 < k then
    let c := (paths.drop i).take k
    let r := submit_loop paths k (i + k)
    (PoolEvent.submit c :: r.1, c :: r.2)
  else
    ([], [])
termination_by paths.length - i
decreasing_by obtain ⟨h1, h2⟩ := h; omega

/-- The retrieval loop (lines 158-159): `for pool in pools: pool.get()`,
one `get` per async result, in submission order. -/
def get_events (pools : List (List String)) : List PoolEvent :=
  pools.map PoolEvent.get

/-- The complete pool-operation trace of a (non-failing) execution of the
pooled branch: the submit loop, then the get loop, then `POOL.close()` and
`POOL.join()` (lines 153-161), after which the function returns. -/
def pooled_trace (paths : List String) (k : Nat) : List PoolEvent :=
  (submit_loop paths k 0).1 ++ get_events (submit_loop paths k 0).2 ++
    [PoolEvent.close, PoolEvent.join]

/-- The retrieval loop (lines 158-159) with per-chunk outcomes: `pool.get()`
re-raises the exception of a failed worker, which aborts the loop.  Returns
the chunks whose `get` was reached and the overall outcome. -/
def get_results (f : List String → Except String Unit) :
    List (List String) → List (List String) × Except String Unit
  | [] => ([], Except.ok ())
  | c :: rest =>
    match f c with
    | Except.error e => ([c], Except.error e)
    | Except.ok _ =>
      let r := get_results f rest
      (c :: r.1, r.2)

/-- Modelled from the spec: `roop.swapper.process_video` and
`roop.enhancer.process_video` are not under `src/`; per the spec glossary a
frame processor is "a named stage (face-swapper, face-enhancer) applied to
each video frame", so processing a list of frame paths applies the per-frame
operation with the given source face image to each frame in order. -/
def process_video {α : Type} (frame_op : String → String → α)
    (source_path : String) (temp_frame_paths : List String) : List α :=
  temp_frame_paths.map (frame_op source_path)

/-- The observable effects performed by `start` (and `destroy`), in program
order.  `status` is `update_status` (which prints the message with a
`Status: ` prefix); `quit` is the `quit()` call of `destroy` ending the
process. -/
inductive Event where
  | status (msg : String)
  | create_temp (path : String)
  | predict_image (path : String)
  | predict_video (path : String)
  | copy_temp_image (path : String)
  | swap_image (source_path temp_image_path : String)
  | enhance_image (source_path temp_image_path : String)
  | move_output (src dst : String)
  | extract_frames (path : String)
  | swap_video (source_path : String) (frame_paths : List String)
  | enhance_video (source_path : String) (frame_paths : List String)
  | release_resources
  | detect_fps (path : String)
  | create_video (path : String) (fps : ℚ)
  | restore_audio (target output : String)
  | move_temp (target output : String)
  | clean_temp (path : String)
  | quit
deriving DecidableEq

/-- Results of the filesystem probes and model inferences that `start`
branches on: `os.path.isfile` checks, `get_one_face`, the extension/type
checks from `roop.utilities`, the NSFW scores of `opennsfw2`, the temp paths
and `detect_fps`. -/
structure StartEnv where
  source_isfile : Bool
  target_isfile : Bool
  face_found : Bool
  target_has_image_ext : Bool
  target_is_image : Bool
  target_is_video : Bool
  image_nsfw_score : ℚ
  video_probabilities : List ℚ
  temp_image_path : String
  temp_image_isfile : Bool
  temp_frame_paths : List String
  fps : ℚ

/-- `destroy` (lines 250-253): clean the target's temp files when a target
path is set, then `quit()`. -/
def destroy (g : Globals) : List Event :=
  (if g.target_path ≠ "" then [Event.clean_temp g.target_path] else []) ++ [Event.quit]

/-- `start` (lines 175-247 of `src/roop/core.py`) as the trace of effects it
performs.  `destroy()` raises `SystemExit`, so nothing after it runs; the
`roop.globals.gpu_threads = 1` write at line 220 has no observable effect and
is not traced. -/
def start (g : Globals) (env : StartEnv) : List Event :=
  if g.source_path = "" ∨ env.source_isfile = false then
    [Event.status "Select an image that contains a face."]
  else if g.target_path = "" ∨ env.target_isfile = false then
    [Event.status "Select an image or video target!"]
  else if env.face_found = false then
    [Event.status "No face detected in source image. Please try with another one!"]
  else
    Event.create_temp g.target_path ::
    (if env.target_has_image_ext then
      Event.predict_image g.target_path ::
      (if (0.85 : ℚ) < env.image_nsfw_score then destroy g
       else
        Event.copy_temp_image g.target_path ::
        ((if "face-swapper" ∈ g.frame_processors then
            [Event.status "Swapping in progress...",
             Event.swap_image g.source_path env.temp_image_path]
          else []) ++
         (if g.gpu_vendor = some "nvidia" ∧ "face-enhancer" ∈ g.frame_processors then
            [Event.status "Enhancing in progress...",
             Event.enhance_image g.source_path env.temp_image_path]
          else []) ++
         (if env.temp_image_isfile then
            [Event.move_output env.temp_image_path g.output_path]
          else []) ++
         (if env.target_is_image then [Event.status "Processing to image succeed!"]
          else [Event.status "Processing to image failed!"])))
     else
      Event.predict_video g.target_path ::
      (if ∃ p ∈ env.video_probabilities, (0.85 : ℚ) < p then destroy g
       else
        [Event.status "Creating temp resources...",
         Event.create_temp g.target_path,
         Event.status "Extracting frames...",
         Event.extract_frames g.target_path] ++
        (if "face-swapper" ∈ g.frame_processors then
           [Event.status "Swapping in progress...",
            Event.swap_video g.source_path env.temp_frame_paths]
         else []) ++
        [Event.release_resources] ++
        (if g.gpu_vendor = some "nvidia" ∧ "face-enhancer" ∈ g.frame_processors then
           [Event.status "Enhancing in progress...",
            Event.enhance_video g.source_path env.temp_frame_paths]
         else []) ++
        [Event.release_resources] ++
        (if g.keep_fps then
           [Event.status "Detecting fps...",
            Event.detect_fps g.target_path,
            Event.status "Creating video with {fps} fps...",
            Event.create_video g.target_path env.fps]
         else
           [Event.status "Creating video with 30.0 fps...",
            Event.create_video g.target_path 30]) ++
        (if g.keep_audio then
           (if g.keep_fps then [Event.status "Restoring audio..."]
            else [Event.status "Restoring audio might cause issues as fps are not kept..."]) ++
           [Event.restore_audio g.target_path g.output_path]
         else
           [Event.move_temp g.target_path g.output_path]) ++
        [Event.clean_temp g.target_path] ++
        (if env.target_is_video then [Event.status "Processing to video succeed!"]
         else [Event.status "Processing to video failed!"]) ++
        [Event.clean_temp g.target_path]))

/-- The pipeline stages named in the spec's video pipeline (extraction, swap,
enhance, reassembly, audio restore / plain move, cleanup); status prints,
NSFW prediction, temp-dir creation, fps detection and resource releases are
bookkeeping, not stages. -/
def is_stage_event : Event → Bool
  | Event.extract_frames _ => true
  | Event.swap_video _ _ => true
  | Event.enhance_video _ _ => true
  | Event.create_video _ _ => true
  | Event.restore_audio _ _ => true
  | Event.move_temp _ _ => true
  | Event.clean_temp _ => true
  | _ => false

/-- Does the event write the final output file (`shutil.move` to the output
path, `restore_audio`, or `move_temp`)? -/
def writes_output : Event → Bool
  | Event.move_output _ _ => true
  | Event.restore_audio _ _ => true
  | Event.move_temp _ _ => true
  | _ => false

/-- Is the event a face-enhancement pass over the extracted frames? -/
def is_enhance_event : Event → Bool
  | Event.enhance_video _ _ => true
  | _ => false

/-- A concrete list of seven extracted frame paths. -/
def exPaths : List String :=
  ["frame01", "frame02", "frame03", "frame04", "frame05", "frame06", "frame07"]

/-- A concrete headless CPU configuration with two cores and a video target. -/
def gPool : Globals :=
  { source_path := "face.jpg"
    target_path := "video.mp4"
    output_path := "out.mp4"
    frame_processors := ["face-swapper"]
    keep_fps := false
    keep_audio := true
    keep_frames := false
    video_encoder := "libx264"
    video_quality := 18
    max_memory := 16
    cpu_cores := 2
    gpu_threads := 8
    gpu_vendor := none
    providers := ["CPUExecutionProvider"] }

/-- A concrete per-frame operation (records which source was applied to which
frame). -/
def opEx : String → String → String := fun source frame => source ++ ">" ++ frame

/-- A concrete per-chunk outcome function: the chunk `["frame2"]` fails, all
others succeed. -/
def fEx : List String → Except String Unit :=
  fun chunk => if chunk = ["frame2"] then Except.error "worker crashed" else Except.ok ()

/-- An image-target configuration that selects only the face enhancer and has
no GPU vendor. -/
def gImgE : Globals :=
  { gPool with target_path := "photo.png", output_path := "out.png",
               frame_processors := ["face-enhancer"] }

/-- An image-target configuration with the default face-swapper selection. -/
def gImgW : Globals :=
  { gPool with target_path := "photo.png", output_path := "out.png" }

/-- A video-target configuration that selects both processors but has no GPU
vendor. -/
def gVidE : Globals :=
  { gPool with frame_processors := ["face-swapper", "face-enhancer"] }

/-- A benign image-target probe environment (NSFW score 0, all files exist). -/
def envImgW : StartEnv :=
  { source_isfile := true
    target_isfile := true
    face_found := true
    target_has_image_ext := true
    target_is_image := true
    target_is_video := false
    image_nsfw_score := 0
    video_probabilities := []
    temp_image_path := "temp/photo.png"
    temp_image_isfile := true
    temp_frame_paths := []
    fps := 30 }

/-- A benign video-target probe environment (all sampled probabilities low). -/
def envVidW : StartEnv :=
  { source_isfile := true
    target_isfile := true
    face_found := true
    target_has_image_ext := false
    target_is_image := false
    target_is_video := true
    image_nsfw_score := 0
    video_probabilities := [0.1, 0.2]
    temp_image_path := ""
    temp_image_isfile := false
    temp_frame_paths := exPaths
    fps := 25 }

/-- An image-target probe environment whose NSFW score exceeds the threshold. -/
def envNsfwImg : StartEnv :=
  { envImgW with image_nsfw_score := 0.99 }

/- ### Helper lemmas about the fan-out loop -/

/-- Concatenating the slices from loop index `i` on recovers the frame list
from position `i` on. -/
theorem pool_chunks_flatten (xs : List String) (k : Nat) (hk : 0 < k) (i : Nat) :
    (pool_chunks xs k i).flatten = xs.drop i := by
  rw [pool_chunks]
  split
  · next h =>
    rw [List.flatten_cons, pool_chunks_flatten xs k hk (i + k)]
    have hd : (xs.drop i).drop k = xs.drop (i + k) := by
      rw [List.drop_drop, Nat.add_comm]
    rw [← hd, List.take_append_drop]
  · next h =>
    simp only [List.flatten_nil]
    have hle : xs.length ≤ i := by omega
    exact (List.drop_eq_nil_of_le hle).symm
termination_by xs.length - i
decreasing_by omega

/-- The loop from index `i` on produces `⌈(length - i) / k⌉` slices. -/
theorem pool_chunks_length (xs : List String) (k : Nat) (hk : 0 < k) (i : Nat) :
    (pool_chunks xs k i).length = (xs.length - i + k - 1) / k := by
  rw [pool_chunks]
  split
  · next h =>
    rw [List.length_cons, pool_chunks_length xs k hk (i + k)]
    have hm : 1 ≤ xs.length - i := by omega
    have h1 : xs.length - i + k - 1 = (xs.length - i - 1) + k := by omega
    have h2 : (xs.length - (i + k) + k - 1) / k = (xs.length - i - 1) / k := by
      by_cases hik : i + k ≤ xs.length
      · congr 1
        omega
      · have e1 : xs.length - (i + k) = 0 := by omega
        rw [e1]
        have e2 : xs.length - i - 1 < k := by omega
        rw [Nat.div_eq_of_lt (by omega), Nat.div_eq_of_lt e2]
    rw [h2, h1, Nat.add_div_right _ hk]
  · next h =>
    have h0 : xs.length - i = 0 := by omega
    rw [h0]
    simp only [List.length_nil]
    rw [Nat.div_eq_of_lt (by omega)]
termination_by xs.length - i
decreasing_by omega

/-- The submission loop emits one `apply_async` per slice and collects the
async results in submission order. -/
theorem submit_loop_eq (paths : List String) (k : Nat) (i : Nat) :
    submit_loop paths k i =
      ((pool_chunks paths k i).map PoolEvent.submit, pool_chunks paths k i) := by
  by_cases h : i < paths.length ∧ 0 < k
  · rw [submit_loop, pool_chunks, dif_pos h, dif_pos h,
      submit_loop_eq paths k (i + k)]
    simp
  · rw [submit_loop, pool_chunks, dif_neg h, dif_neg h]
    simp
termination_by paths.length - i
decreasing_by omega

/- ### Claim theorems -/

/-- C1: the claim says that `--execution-provider directml` with no
`--gpu-vendor` flag leaves `'DmlExecutionProvider'` in
`roop.globals.providers`.  The code does not: for every prior global state,
the `else` branch at line 80 (taken because `args.gpu_vendor` is `None`)
overwrites the DirectML assignment of line 75, so `parse_args` ends with
`providers = ['CPUExecutionProvider']`. -/
theorem c1_directml_without_vendor_gets_cpu_provider (g : Globals) :
    (parse_args_update g ⟨"directml", none⟩).providers = ["CPUExecutionProvider"] ∧
    "DmlExecutionProvider" ∉ (parse_args_update g ⟨"directml", none⟩).providers := by
  constructor
  · rfl
  · simp [parse_args_update]

/-- C2 counterexample: with seven frame paths and `cpu_cores = 2` the pooled
branch is taken (`pool_amount = 3 > 2`), but the loop submits three chunks,
not `cpu_cores = 2` as the claim states. -/
theorem c2_counterexample :
    pooled_cond gPool exPaths ∧
    (pooled_run gPool exPaths).chunks.length ≠ gPool.cpu_cores := by
  constructor
  · decide
  · simp [pooled_run, pool_chunks, gPool, exPaths]

/-- C2 (amended): on the pooled branch, `conditional_process_video` creates a
worker pool of exactly `cpu_cores` processes (with `maxtasksperchild=1`) and
submits `⌈len / pool_amount⌉` chunks where
`pool_amount = len // cpu_cores`; this equals `cpu_cores` only when
`cpu_cores` divides the frame count, and otherwise exceeds it. -/
theorem c2_amended_pool_size_and_chunk_count (g : Globals) (paths : List String)
    (hb : pooled_cond g paths) :
    (pooled_run g paths).processes = g.cpu_cores ∧
    (pooled_run g paths).maxtasksperchild = 1 ∧
    (pooled_run g paths).chunks.length =
      (paths.length + paths.length / g.cpu_cores - 1) / (paths.length / g.cpu_cores) := by
  refine ⟨rfl, rfl, ?_⟩
  have hk : 0 < paths.length / g.cpu_cores := by
    have h1 := hb.1
    omega
  show (pool_chunks paths (paths.length / g.cpu_cores) 0).length = _
  rw [pool_chunks_length paths _ hk 0, Nat.sub_zero]

/-- Witness for the amended C2 at the concrete seven-frame, two-core input. -/
theorem c2_amended_pool_size_and_chunk_count_witness :
    pooled_cond gPool exPaths ∧
    ((pooled_run gPool exPaths).processes = gPool.cpu_cores ∧
     (pooled_run gPool exPaths).maxtasksperchild = 1 ∧
     (pooled_run gPool exPaths).chunks.length =
       (exPaths.length + exPaths.length / gPool.cpu_cores - 1) /
         (exPaths.length / gPool.cpu_cores)) :=
  ⟨by decide, c2_amended_pool_size_and_chunk_count gPool exPaths (by decide)⟩

/-- C3: for a non-empty frame list and `cpu_cores ≥ 1` with
`pool_amount = len // cpu_cores ≥ 1`, the contiguous slices submitted by
`conditional_process_video`, concatenated in submission order, equal the
original list — every frame path lands in exactly one chunk, in order. -/
theorem c3_chunks_concat_eq_original (paths : List String) (cores : Nat)
    (hne : paths ≠ []) (hc : 1 ≤ cores) (hp : 1 ≤ paths.length / cores) :
    (pool_chunks paths (paths.length / cores) 0).flatten = paths := by
  rw [pool_chunks_flatten paths _ hp 0, List.drop_zero]

/-- Witness for C3 at the concrete seven-frame, two-core input. -/
theorem c3_chunks_concat_eq_original_witness :
    exPaths ≠ [] ∧ 1 ≤ 2 ∧ 1 ≤ exPaths.length / 2 ∧
    (pool_chunks exPaths (exPaths.length / 2) 0).flatten = exPaths :=
  ⟨by decide, by decide, by decide,
    c3_chunks_concat_eq_original exPaths 2 (by decide) (by decide) (by decide)⟩

/-- C4: in every execution of the pooled branch, the trace of pool operations
is all submissions, then one `get` per submitted chunk in submission order,
then `close` and `join`, after which the function returns — so every chunk's
result is retrieved and the pool is closed and joined before the pipeline
proceeds. -/
theorem c4_pooled_trace_retrieves_all (g : Globals) (paths : List String)
    (hb : pooled_cond g paths) :
    pooled_trace paths (paths.length / g.cpu_cores) =
      (pool_chunks paths (paths.length / g.cpu_cores) 0).map PoolEvent.submit ++
      (pool_chunks paths (paths.length / g.cpu_cores) 0).map PoolEvent.get ++
      [PoolEvent.close, PoolEvent.join] ∧
    ∀ c ∈ pool_chunks paths (paths.length / g.cpu_cores) 0,
      PoolEvent.get c ∈ pooled_trace paths (paths.length / g.cpu_cores) := by
  have ht : pooled_trace paths (paths.length / g.cpu_cores) =
      (pool_chunks paths (paths.length / g.cpu_cores) 0).map PoolEvent.submit ++
      (pool_chunks paths (paths.length / g.cpu_cores) 0).map PoolEvent.get ++
      [PoolEvent.close, PoolEvent.join] := by
    rw [pooled_trace, submit_loop_eq, get_events]
  refine ⟨ht, ?_⟩
  intro c hc
  rw [ht]
  exact List.mem_append_left _ (List.mem_append_right _ (List.mem_map_of_mem _ hc))

/-- Witness for C4 at the concrete seven-frame, two-core input. -/
theorem c4_pooled_trace_retrieves_all_witness :
    pooled_cond gPool exPaths ∧
    (pooled_trace exPaths (exPaths.length / gPool.cpu_cores) =
      (pool_chunks exPaths (exPaths.length / gPool.cpu_cores) 0).map PoolEvent.submit ++
      (pool_chunks exPaths (exPaths.length / gPool.cpu_cores) 0).map PoolEvent.get ++
      [PoolEvent.close, PoolEvent.join] ∧
    ∀ c ∈ pool_chunks exPaths (exPaths.length / gPool.cpu_cores) 0,
      PoolEvent.get c ∈ pooled_trace exPaths (exPaths.length / gPool.cpu_cores)) :=
  ⟨by decide, c4_pooled_trace_retrieves_all gPool exPaths (by decide)⟩

/-- C5: if the chunks before `c` succeed and `c`'s worker raised `e`, the
retrieval loop attempts each chunk's `get` exactly once up to and including
`c`, re-raises `e` to the caller, and performs no retry and no
partial-result recovery. -/
theorem c5_worker_error_propagates (f : List String → Except String Unit)
    (pre : List (List String)) (c : List String) (post : List (List String))
    (e : String)
    (hpre : ∀ d ∈ pre, f d = Except.ok ()) (hc : f c = Except.error e) :
    get_results f (pre ++ c :: post) = (pre ++ [c], Except.error e) := by
  induction pre with
  | nil => simp [get_results, hc]
  | cons d rest ih =>
    have hd : f d = Except.ok () := hpre d (List.mem_cons_self d rest)
    have ih2 := ih fun x hx => hpre x (List.mem_cons_of_mem d hx)
    simp only [List.cons_append, get_results, hd]
    simp only [List.append_eq]
    rw [ih2]

/-- Witness for C5: a three-chunk run whose middle chunk fails. -/
theorem c5_worker_error_propagates_witness :
    (∀ d ∈ [["frame1"]], fEx d = Except.ok ()) ∧
    fEx ["frame2"] = Except.error "worker crashed" ∧
    get_results fEx ([["frame1"]] ++ ["frame2"] :: [["frame3"]]) =
      ([["frame1"]] ++ [["frame2"]], Except.error "worker crashed") := by
  have hpre : ∀ d ∈ [["frame1"]], fEx d = Except.ok () := by
    intro d hd
    simp only [List.mem_singleton] at hd
    subst hd
    rfl
  have hc : fEx ["frame2"] = Except.error "worker crashed" := rfl
  exact ⟨hpre, hc,
    c5_worker_error_propagates fEx [["frame1"]] ["frame2"] [["frame3"]]
      "worker crashed" hpre hc⟩

/-- C6: on the pooled branch the chunked per-chunk processing, concatenated,
performs exactly the work of the direct branch's single `process_video` call
on the whole list: the same frames are processed with the same source image
(the call sites in `start` pass `roop.globals.source_path` as the
`source_path` argument, which the direct branch also reads). -/
theorem c6_pooled_branch_refines_direct (α : Type) (frame_op : String → String → α)
    (g : Globals) (paths : List String) (src : String)
    (hb : pooled_cond g paths) (hs : src = g.source_path) :
    ((pool_chunks paths (paths.length / g.cpu_cores) 0).map
        (process_video frame_op src)).flatten =
      process_video frame_op g.source_path paths := by
  subst hs
  have hk : 0 < paths.length / g.cpu_cores := by
    have h1 := hb.1
    omega
  simp only [process_video]
  have h1 : List.map (process_video frame_op g.source_path)
        (pool_chunks paths (paths.length / g.cpu_cores) 0) =
      List.map (List.map (frame_op g.source_path))
        (pool_chunks paths (paths.length / g.cpu_cores) 0) := rfl
  rw [h1, ← List.map_flatten, pool_chunks_flatten paths _ hk 0, List.drop_zero]

/-- C7: `pre_check` returns normally exactly when none of the unsupported
conditions holds — Python below 3.9, `ffmpeg` not on `PATH`, or the selected
GPU vendor's accelerator unavailable (CoreML or ROCM provider missing, CUDA
unavailable, or the CUDA/CUDNN version outside the supported range); in every
other case it terminates the process with a printed message (`Except.error`). -/
theorem c7_pre_check_ok_iff_supported (g : Globals) (env : RuntimeEnv) :
    pre_check g env = Except.ok () ↔
      ¬ (version_lt env.python_version (3, 9) ∨
         env.ffmpeg_found = false ∨
         (g.gpu_vendor = some "apple" ∧ "CoreMLExecutionProvider" ∉ g.providers) ∨
         (g.gpu_vendor = some "amd" ∧ "ROCMExecutionProvider" ∉ g.providers) ∨
         (g.gpu_vendor = some "nvidia" ∧
           (env.cuda_available = false ∨
            "11.8" < env.cuda_version ∨
            env.cuda_version < "11.4" ∨
            env.cudnn_version < 8220 ∨
            8910 < env.cudnn_version))) := by
  unfold pre_check
  split_ifs with h1 h2 h3 h4 h5 h6 h7 h8 h9 h10
  · exact iff_of_false (by simp) (not_not_intro (Or.inl h1))
  · exact iff_of_false (by simp) (not_not_intro (Or.inr (Or.inl h2)))
  · exact iff_of_false (by simp) (not_not_intro (Or.inr (Or.inr (Or.inl h3))))
  · exact iff_of_false (by simp) (not_not_intro (Or.inr (Or.inr (Or.inr (Or.inl h4)))))
  · exact iff_of_false (by simp)
      (not_not_intro (Or.inr (Or.inr (Or.inr (Or.inr ⟨h5, Or.inl h6⟩)))))
  · exact iff_of_false (by simp)
      (not_not_intro (Or.inr (Or.inr (Or.inr (Or.inr ⟨h5, Or.inr (Or.inl h7)⟩)))))
  · exact iff_of_false (by simp)
      (not_not_intro (Or.inr (Or.inr (Or.inr (Or.inr ⟨h5, Or.inr (Or.inr (Or.inl h8))⟩)))))
  · exact iff_of_false (by simp)
      (not_not_intro (Or.inr (Or.inr (Or.inr (Or.inr
        ⟨h5, Or.inr (Or.inr (Or.inr (Or.inl h9)))⟩)))))
  · exact iff_of_false (by simp)
      (not_not_intro (Or.inr (Or.inr (Or.inr (Or.inr
        ⟨h5, Or.inr (Or.inr (Or.inr (Or.inr h10)))⟩)))))
  · refine iff_of_true rfl ?_
    rintro (hv | hff | hap | ham | ⟨hn, hc | hc | hc | hc | hc⟩)
    exacts [h1 hv, h2 hff, h3 hap, h4 ham, h6 hc, h7 hc, h8 hc, h9 hc, h10 hc]
  · refine iff_of_true rfl ?_
    rintro (hv | hff | hap | ham | ⟨hn, _⟩)
    exacts [h1 hv, h2 hff, h3 hap, h4 ham, h5 hn]

/-- Witness for C6 at the concrete seven-frame, two-core input. -/
theorem c6_pooled_branch_refines_direct_witness :
    pooled_cond gPool exPaths ∧ gPool.source_path = gPool.source_path ∧
    ((pool_chunks exPaths (exPaths.length / gPool.cpu_cores) 0).map
        (process_video opEx gPool.source_path)).flatten =
      process_video opEx gPool.source_path exPaths :=
  ⟨by decide, rfl,
    c6_pooled_branch_refines_direct String opEx gPool exPaths gPool.source_path
      (by decide) rfl⟩

/-- C10: whenever the NSFW score of an image target, or some sampled frame
probability of a video target, exceeds 0.85, `start` terminates the process
via `destroy`, which removes the target's temp files before quitting (the
target path is set here), and no event writing an output file ever occurs. -/
theorem c10_nsfw_destroys_without_output (g : Globals) (env : StartEnv)
    (hs : g.source_path ≠ "") (hsf : env.source_isfile = true)
    (ht : g.target_path ≠ "") (htf : env.target_isfile = true)
    (hface : env.face_found = true)
    (hn : (env.target_has_image_ext = true ∧ (0.85 : ℚ) < env.image_nsfw_score) ∨
          (env.target_has_image_ext = false ∧
            ∃ p ∈ env.video_probabilities, (0.85 : ℚ) < p)) :
    (∃ pre, start g env = pre ++ [Event.clean_temp g.target_path, Event.quit]) ∧
    ∀ e ∈ start g env, writes_output e = false := by
  rcases hn with ⟨himg, hsc⟩ | ⟨himg, hsc⟩
  · have hstart : start g env = [Event.create_temp g.target_path,
        Event.predict_image g.target_path, Event.clean_temp g.target_path,
        Event.quit] := by
      simp [start, hs, hsf, ht, htf, hface, himg, hsc, destroy]
    refine ⟨⟨[Event.create_temp g.target_path, Event.predict_image g.target_path],
      by rw [hstart]; rfl⟩, ?_⟩
    intro e he
    rw [hstart] at he
    simp only [List.mem_cons, List.not_mem_nil, or_false] at he
    rcases he with rfl | rfl | rfl | rfl <;> rfl
  · have hstart : start g env = [Event.create_temp g.target_path,
        Event.predict_video g.target_path, Event.clean_temp g.target_path,
        Event.quit] := by
      simp [start, hs, hsf, ht, htf, hface, himg, hsc, destroy]
    refine ⟨⟨[Event.create_temp g.target_path, Event.predict_video g.target_path],
      by rw [hstart]; rfl⟩, ?_⟩
    intro e he
    rw [hstart] at he
    simp only [List.mem_cons, List.not_mem_nil, or_false] at he
    rcases he with rfl | rfl | rfl | rfl <;> rfl

/-- C8 counterexample: an image target passing all checks with
`'face-enhancer'` selected but no GPU vendor — `start` never applies the
face enhancer, contradicting the claim that it runs whenever it is among the
selected frame processors. -/
theorem c8_counterexample :
    "face-enhancer" ∈ gImgE.frame_processors ∧
    gImgE.source_path ≠ "" ∧ envImgW.source_isfile = true ∧
    gImgE.target_path ≠ "" ∧ envImgW.target_isfile = true ∧
    envImgW.face_found = true ∧ envImgW.target_has_image_ext = true ∧
    ¬ (0.85 : ℚ) < envImgW.image_nsfw_score ∧
    envImgW.temp_image_isfile = true ∧
    (start gImgE envImgW).count
      (Event.enhance_image gImgE.source_path envImgW.temp_image_path) = 0 := by
  have hsc : ¬ (0.85 : ℚ) < envImgW.image_nsfw_score := by
    show ¬ (0.85 : ℚ) < (0 : ℚ)
    norm_num
  refine ⟨by decide, by decide, rfl, by decide, rfl, rfl, rfl, hsc, rfl, ?_⟩
  have hstart : start gImgE envImgW =
      [Event.create_temp "photo.png", Event.predict_image "photo.png",
       Event.copy_temp_image "photo.png", Event.move_output "temp/photo.png" "out.png",
       Event.status "Processing to image succeed!"] := by
    simp [start, gImgE, gPool, envImgW, (show ¬ (0.85 : ℚ) < (0 : ℚ) by norm_num)]
  rw [hstart]
  decide

/-- C8 (amended): for every image target that passes the source-face and NSFW
checks (and whose processed temp image exists), `start` applies the face
swapper exactly once to the temporary copy when `'face-swapper'` is selected,
applies the face enhancer exactly once to the temporary copy when
`'face-enhancer'` is selected *and* the GPU vendor is `'nvidia'`, and
afterwards moves the processed temp image to the output path (no processor
runs after the move). -/
theorem c8_amended_image_processors_once_then_move (g : Globals) (env : StartEnv)
    (hs : g.source_path ≠ "") (hsf : env.source_isfile = true)
    (ht : g.target_path ≠ "") (htf : env.target_isfile = true)
    (hface : env.face_found = true)
    (himg : env.target_has_image_ext = true)
    (hnsfw : ¬ (0.85 : ℚ) < env.image_nsfw_score)
    (htemp : env.temp_image_isfile = true) :
    ((start g env).count (Event.swap_image g.source_path env.temp_image_path) =
      if "face-swapper" ∈ g.frame_processors then 1 else 0) ∧
    ((start g env).count (Event.enhance_image g.source_path env.temp_image_path) =
      if g.gpu_vendor = some "nvidia" ∧ "face-enhancer" ∈ g.frame_processors
      then 1 else 0) ∧
    (∃ pre post, start g env =
        pre ++ Event.move_output env.temp_image_path g.output_path :: post ∧
        (∀ s p, Event.swap_image s p ∉ post) ∧
        (∀ s p, Event.enhance_image s p ∉ post)) := by
  have hstart : start g env =
      Event.create_temp g.target_path :: Event.predict_image g.target_path ::
      Event.copy_temp_image g.target_path ::
      ((if "face-swapper" ∈ g.frame_processors then
          [Event.status "Swapping in progress...",
           Event.swap_image g.source_path env.temp_image_path]
        else []) ++
       ((if g.gpu_vendor = some "nvidia" ∧ "face-enhancer" ∈ g.frame_processors then
          [Event.status "Enhancing in progress...",
           Event.enhance_image g.source_path env.temp_image_path]
         else []) ++
        (Event.move_output env.temp_image_path g.output_path ::
         (if env.target_is_image = true then
            [Event.status "Processing to image succeed!"]
          else [Event.status "Processing to image failed!"])))) := by
    simp [start, hs, hsf, ht, htf, hface, himg, hnsfw, htemp]
  refine ⟨?_, ?_, ?_⟩
  · rw [hstart]
    by_cases hsw : "face-swapper" ∈ g.frame_processors <;>
      by_cases hen : g.gpu_vendor = some "nvidia" ∧
          "face-enhancer" ∈ g.frame_processors <;>
        by_cases him : env.target_is_image = true <;>
          simp [hsw, hen, him, List.count_cons, List.count_append]
  · rw [hstart]
    by_cases hsw : "face-swapper" ∈ g.frame_processors <;>
      by_cases hen : g.gpu_vendor = some "nvidia" ∧
          "face-enhancer" ∈ g.frame_processors <;>
        by_cases him : env.target_is_image = true <;>
          simp [hsw, hen, him, List.count_cons, List.count_append]
  · refine ⟨Event.create_temp g.target_path :: Event.predict_image g.target_path ::
      Event.copy_temp_image g.target_path ::
      ((if "face-swapper" ∈ g.frame_processors then
          [Event.status "Swapping in progress...",
           Event.swap_image g.source_path env.temp_image_path]
        else []) ++
       (if g.gpu_vendor = some "nvidia" ∧ "face-enhancer" ∈ g.frame_processors then
          [Event.status "Enhancing in progress...",
           Event.enhance_image g.source_path env.temp_image_path]
        else [])),
      (if env.target_is_image = true then
         [Event.status "Processing to image succeed!"]
       else [Event.status "Processing to image failed!"]), ?_, ?_, ?_⟩
    · rw [hstart]
      simp [List.append_assoc]
    · intro s p
      by_cases him : env.target_is_image = true <;> simp [him]
    · intro s p
      by_cases him : env.target_is_image = true <;> simp [him]

/-- Witness for the amended C8: a benign image run with the default
face-swapper selection and no GPU vendor. -/
theorem c8_amended_image_processors_once_then_move_witness :
    gImgW.source_path ≠ "" ∧ envImgW.source_isfile = true ∧
    gImgW.target_path ≠ "" ∧ envImgW.target_isfile = true ∧
    envImgW.face_found = true ∧ envImgW.target_has_image_ext = true ∧
    ¬ (0.85 : ℚ) < envImgW.image_nsfw_score ∧ envImgW.temp_image_isfile = true ∧
    (((start gImgW envImgW).count
        (Event.swap_image gImgW.source_path envImgW.temp_image_path) =
      if "face-swapper" ∈ gImgW.frame_processors then 1 else 0) ∧
    ((start gImgW envImgW).count
        (Event.enhance_image gImgW.source_path envImgW.temp_image_path) =
      if gImgW.gpu_vendor = some "nvidia" ∧
          "face-enhancer" ∈ gImgW.frame_processors then 1 else 0) ∧
    (∃ pre post, start gImgW envImgW =
        pre ++ Event.move_output envImgW.temp_image_path gImgW.output_path :: post ∧
        (∀ s p, Event.swap_image s p ∉ post) ∧
        (∀ s p, Event.enhance_image s p ∉ post))) := by
  have hsc : ¬ (0.85 : ℚ) < envImgW.image_nsfw_score := by
    show ¬ (0.85 : ℚ) < (0 : ℚ)
    norm_num
  exact ⟨by decide, rfl, by decide, rfl, rfl, rfl, hsc, rfl,
    c8_amended_image_processors_once_then_move gImgW envImgW (by decide) rfl
      (by decide) rfl rfl rfl hsc rfl⟩

/-- C9 counterexample: a video target passing all checks with
`'face-enhancer'` selected but no GPU vendor — no enhancement stage occurs in
the run, contradicting the claim that the enhancement stage is performed
whenever it is selected. -/
theorem c9_counterexample :
    "face-enhancer" ∈ gVidE.frame_processors ∧
    gVidE.source_path ≠ "" ∧ envVidW.source_isfile = true ∧
    gVidE.target_path ≠ "" ∧ envVidW.target_isfile = true ∧
    envVidW.face_found = true ∧ envVidW.target_has_image_ext = false ∧
    ¬ (∃ p ∈ envVidW.video_probabilities, (0.85 : ℚ) < p) ∧
    (start gVidE envVidW).filter is_enhance_event = [] := by
  have hnv : ¬ ∃ p ∈ envVidW.video_probabilities, (0.85 : ℚ) < p := by
    show ¬ ∃ p ∈ [(0.1 : ℚ), (0.2 : ℚ)], (0.85 : ℚ) < p
    rintro ⟨p, hp, hlt⟩
    simp only [List.mem_cons, List.not_mem_nil, or_false] at hp
    rcases hp with rfl | rfl <;> norm_num at hlt
  refine ⟨by decide, by decide, rfl, by decide, rfl, rfl, rfl, hnv, ?_⟩
  have hstart : start gVidE envVidW =
      [Event.create_temp "video.mp4", Event.predict_video "video.mp4",
       Event.status "Creating temp resources...", Event.create_temp "video.mp4",
       Event.status "Extracting frames...", Event.extract_frames "video.mp4",
       Event.status "Swapping in progress...",
       Event.swap_video "face.jpg" exPaths,
       Event.release_resources, Event.release_resources,
       Event.status "Creating video with 30.0 fps...",
       Event.create_video "video.mp4" 30,
       Event.status "Restoring audio might cause issues as fps are not kept...",
       Event.restore_audio "video.mp4" "out.mp4",
       Event.clean_temp "video.mp4",
       Event.status "Processing to video succeed!",
       Event.clean_temp "video.mp4"] := by
    norm_num [start, gVidE, gPool, envVidW]
    simp
  rw [hstart]
  rfl

/-- C9 (amended): for every video target that passes the source-face and NSFW
checks, the pipeline stages of `start` occur in this fixed order: frame
extraction, face swap (when `'face-swapper'` is selected), face enhancement
(when `'face-enhancer'` is selected *and* the GPU vendor is `'nvidia'`),
video reassembly, then audio restoration (when `keep_audio` is set) or a
plain move of the temp video to the output path, and finally temp-file
cleanup — which happens (twice) on every run reaching the end. -/
theorem c9_amended_video_stage_order (g : Globals) (env : StartEnv)
    (hs : g.source_path ≠ "") (hsf : env.source_isfile = true)
    (ht : g.target_path ≠ "") (htf : env.target_isfile = true)
    (hface : env.face_found = true)
    (himg : env.target_has_image_ext = false)
    (hnsfw : ¬ ∃ p ∈ env.video_probabilities, (0.85 : ℚ) < p) :
    (start g env).filter is_stage_event =
      Event.extract_frames g.target_path ::
      ((if "face-swapper" ∈ g.frame_processors then
          [Event.swap_video g.source_path env.temp_frame_paths]
        else []) ++
       ((if g.gpu_vendor = some "nvidia" ∧ "face-enhancer" ∈ g.frame_processors then
           [Event.enhance_video g.source_path env.temp_frame_paths]
         else []) ++
        (Event.create_video g.target_path (if g.keep_fps = true then env.fps else 30) ::
         ((if g.keep_audio = true then
             [Event.restore_audio g.target_path g.output_path]
           else [Event.move_temp g.target_path g.output_path]) ++
          [Event.clean_temp g.target_path, Event.clean_temp g.target_path])))) := by
  by_cases h1 : "face-swapper" ∈ g.frame_processors <;>
    by_cases h2 : g.gpu_vendor = some "nvidia" ∧
        "face-enhancer" ∈ g.frame_processors <;>
      by_cases h3 : g.keep_fps = true <;>
        by_cases h4 : g.keep_audio = true <;>
          by_cases h5 : env.target_is_video = true <;>
            simp [start, hs, hsf, ht, htf, hface, himg, hnsfw,
              h1, h2, h3, h4, h5, is_stage_event]

/-- Witness for the amended C9: a benign video run with the default
face-swapper selection, `keep_audio` set and no GPU vendor. -/
theorem c9_amended_video_stage_order_witness :
    gPool.source_path ≠ "" ∧ envVidW.source_isfile = true ∧
    gPool.target_path ≠ "" ∧ envVidW.target_isfile = true ∧
    envVidW.face_found = true ∧ envVidW.target_has_image_ext = false ∧
    ¬ (∃ p ∈ envVidW.video_probabilities, (0.85 : ℚ) < p) ∧
    (start gPool envVidW).filter is_stage_event =
      Event.extract_frames gPool.target_path ::
      ((if "face-swapper" ∈ gPool.frame_processors then
          [Event.swap_video gPool.source_path envVidW.temp_frame_paths]
        else []) ++
       ((if gPool.gpu_vendor = some "nvidia" ∧
            "face-enhancer" ∈ gPool.frame_processors then
           [Event.enhance_video gPool.source_path envVidW.temp_frame_paths]
         else []) ++
        (Event.create_video gPool.target_path
            (if gPool.keep_fps = true then envVidW.fps else 30) ::
         ((if gPool.keep_audio = true then
             [Event.restore_audio gPool.target_path gPool.output_path]
           else [Event.move_temp gPool.target_path gPool.output_path]) ++
          [Event.clean_temp gPool.target_path,
           Event.clean_temp gPool.target_path])))) := by
  have hnv : ¬ ∃ p ∈ envVidW.video_probabilities, (0.85 : ℚ) < p := by
    show ¬ ∃ p ∈ [(0.1 : ℚ), (0.2 : ℚ)], (0.85 : ℚ) < p
    rintro ⟨p, hp, hlt⟩
    simp only [List.mem_cons, List.not_mem_nil, or_false] at hp
    rcases hp with rfl | rfl <;> norm_num at hlt
  exact ⟨by decide, rfl, by decide, rfl, rfl, rfl, hnv,
    c9_amended_video_stage_order gPool envVidW (by decide) rfl (by decide) rfl
      rfl rfl hnv⟩

/-- Witness for C10: an image target whose NSFW score is 0.99. -/
theorem c10_nsfw_destroys_without_output_witness :
    gImgW.source_path ≠ "" ∧ envNsfwImg.source_isfile = true ∧
    gImgW.target_path ≠ "" ∧ envNsfwImg.target_isfile = true ∧
    envNsfwImg.face_found = true ∧
    (envNsfwImg.target_has_image_ext = true ∧
      (0.85 : ℚ) < envNsfwImg.image_nsfw_score) ∧
    ((∃ pre, start gImgW envNsfwImg =
        pre ++ [Event.clean_temp gImgW.target_path, Event.quit]) ∧
     ∀ e ∈ start gImgW envNsfwImg, writes_output e = false) := by
  have h1 : gImgW.source_path ≠ "" := by decide
  have h2 : envNsfwImg.source_isfile = true := rfl
  have h3 : gImgW.target_path ≠ "" := by decide
  have h4 : envNsfwImg.target_isfile = true := rfl
  have h5 : envNsfwImg.face_found = true := rfl
  have h6 : envNsfwImg.target_has_image_ext = true ∧
      (0.85 : ℚ) < envNsfwImg.image_nsfw_score := by
    refine ⟨rfl, ?_⟩
    show (0.85 : ℚ) < (0.99 : ℚ)
    norm_num
  exact ⟨h1, h2, h3, h4, h5, h6,
    c10_nsfw_destroys_without_output gImgW envNsfwImg h1 h2 h3 h4 h5 (Or.inl h6)⟩

end Roop
